import Mathlib

/-!
Shallow embedding of `src/the_snake.py`: the grid constants, the snake
entity (move / reset / head access), the three placement routines
(`Apple.randomize_position`, `RottenApple.randomize_position`,
`Rock.randomize_position`) and the per-tick interaction resolver
(`game_interaction`).

Modelling conventions:
* A cell is a pair of Python integers, modelled as `Int × Int` (pixel
  coordinates, multiples of 20 inside the 640×480 screen).
* The `while True: sample; if ok: return` placement loops are embedded by
  passing the stream of raw random samples explicitly as a `List Cell` and
  returning the first sample that passes the acceptance test
  (`List.find?`); `none` models a run of samples in which the loop has not
  yet returned.  `randint(0, GRID_WIDTH-1) * GRID_SIZE` sampling is
  captured by the `validSample` predicate on the supplied samples.
* Python `None` defaults become `Option Cell`; a two-element tuple is
  always truthy in Python, so `some p` always takes the checked branch.
* `Snake.move` returns `Option Snake`: `none` models the `TypeError`
  Python raises when `get_head_position` is `None` (empty path) and a
  direction branch subscripts it.
-/

/-- Cell = pixel coordinate pair, as in the Python source. -/
abbrev Cell := Int × Int

/-- Constant `SCREEN_WIDTH`. -/
def SCREEN_WIDTH : Int := 640

/-- Constant `SCREEN_HEIGHT`. -/
def SCREEN_HEIGHT : Int := 480

/-- Constant `GRID_SIZE`. -/
def GRID_SIZE : Int := 20

/-- Constant `UP = (0, -1)`. -/
def UP : Int × Int := (0, -1)

/-- Constant `DOWN = (0, 1)`. -/
def DOWN : Int × Int := (0, 1)

/-- Constant `LEFT = (-1, 0)`. -/
def LEFT : Int × Int := (-1, 0)

/-- Constant `RIGHT = (1, 0)`. -/
def RIGHT : Int × Int := (1, 0)

/-- A cell is a legal grid cell of the 640×480 screen with 20px cells:
both coordinates are in range and multiples of `GRID_SIZE`.  This is
exactly the set of values `randint(0, GRID_WIDTH-1) * GRID_SIZE`,
`randint(0, GRID_HEIGHT-1) * GRID_SIZE` can produce. -/
def inGrid (c : Cell) : Prop :=
  (0 ≤ c.1 ∧ c.1 < 640 ∧ c.1 % 20 = 0) ∧ (0 ≤ c.2 ∧ c.2 < 480 ∧ c.2 % 20 = 0)

instance (c : Cell) : Decidable (inGrid c) := by
  unfold inGrid; infer_instance

/-- Boolean form of `inGrid`, used to constrain raw placement samples. -/
def validSample (c : Cell) : Bool := decide (inGrid c)

/-- The coordinate test used by every placement loop:
`x_coordinate != part[0] and y_coordinate != part[1]` — the candidate
differs from the occupied cell in BOTH coordinates. -/
def bothDiffer (c p : Cell) : Bool := decide (c.1 ≠ p.1) && decide (c.2 ≠ p.2)

/-- The same test applied to an optional occupied cell; `none` models a
Python `None` default argument (the `if rotten_apple_position:` guard;
a two-element tuple is always truthy). -/
def bothDifferOpt (c : Cell) (p : Option Cell) : Bool :=
  match p with
  | none => true
  | some q => bothDiffer c q

/-- Acceptance test of `Apple.randomize_position`'s loop body:
`is_snake_position and is_rotten_apple_position and is_rock_position`. -/
def appleAccepts (snake_positions : List Cell)
    (rotten_apple_position rock_position : Option Cell) (c : Cell) : Bool :=
  snake_positions.all (bothDiffer c)
    && bothDifferOpt c rotten_apple_position
    && bothDifferOpt c rock_position

/-- Acceptance test of `RottenApple.randomize_position`'s loop body:
the apple argument is mandatory and always checked. -/
def rottenAccepts (snake_positions : List Cell) (apple_position : Cell)
    (rock_position : Option Cell) (c : Cell) : Bool :=
  snake_positions.all (bothDiffer c)
    && bothDiffer c apple_position
    && bothDifferOpt c rock_position

/-- Acceptance test of `Rock.randomize_position`'s loop body: apple and
rotten-apple arguments are mandatory and always checked. -/
def rockAccepts (snake_positions : List Cell)
    (apple_position rotten_apple_position : Cell) (c : Cell) : Bool :=
  snake_positions.all (bothDiffer c)
    && bothDiffer c apple_position
    && bothDiffer c rotten_apple_position

/-- Embedding of `Apple.randomize_position`: returns the first raw sample accepted by
the loop's test; the sample stream is explicit. -/
def Apple.randomize_position (snake_positions : List Cell)
    (rotten_apple_position rock_position : Option Cell)
    (samples : List Cell) : Option Cell :=
  samples.find? (appleAccepts snake_positions rotten_apple_position rock_position)

/-- Embedding of `RottenApple.randomize_position` with an explicit sample stream. -/
def RottenApple.randomize_position (snake_positions : List Cell)
    (apple_position : Cell) (rock_position : Option Cell)
    (samples : List Cell) : Option Cell :=
  samples.find? (rottenAccepts snake_positions apple_position rock_position)

/-- Embedding of `Rock.randomize_position` with an explicit sample stream. -/
def Rock.randomize_position (snake_positions : List Cell)
    (apple_position rotten_apple_position : Cell)
    (samples : List Cell) : Option Cell :=
  samples.find? (rockAccepts snake_positions apple_position rotten_apple_position)

/-- The `Snake` object's state.  `position` is the attribute set by
`GameObject.__init__` to the screen centre `(320, 240)` and never changed
afterwards; `reset` re-reads it. -/
structure Snake where
  position : Cell
  positions : List Cell
  length : Int
  direction : Int × Int
  next_direction : Option (Int × Int)
deriving Repr, DecidableEq

/-- Embedding of `Snake.get_head_position`: `positions[0]`, or `None` on an empty
list (the `except IndexError` branch). -/
def Snake.get_head_position (s : Snake) : Option Cell :=
  s.positions.head?

/-- Embedding of `Snake.reset`: path = `[self.position]`, length 1, direction RIGHT,
pending direction cleared. -/
def Snake.reset (s : Snake) : Snake :=
  { s with positions := [s.position]
         , length := 1
         , direction := RIGHT
         , next_direction := none }

/-- Embedding of `Snake.update_direction`: commit the pending direction if present. -/
def Snake.update_direction (s : Snake) : Snake :=
  match s.next_direction with
  | none => s
  | some d => { s with direction := d, next_direction := none }

/-- Embedding of `Snake.move`: the if/elif chain inserts the wrapped new head at the
front (each branch subscripts `get_head_position`, so an empty path gives
`none` = Python `TypeError`); then `del positions[-1]` runs while
`len(positions) > length`, i.e. the list is truncated to
`length` elements (for non-negative `length`). -/
def Snake.move (s : Snake) : Option Snake :=
  let inserted : Option (List Cell) :=
    if s.direction = UP then
      match s.positions.head? with
      | none => none
      | some h =>
          some ((if h.2 ≤ 0 then (h.1, (460 : Int)) else (h.1, h.2 - 20)) :: s.positions)
    else if s.direction = DOWN then
      match s.positions.head? with
      | none => none
      | some h =>
          some ((if h.2 ≥ 460 then (h.1, (0 : Int)) else (h.1, h.2 + 20)) :: s.positions)
    else if s.direction = LEFT then
      match s.positions.head? with
      | none => none
      | some h =>
          some ((if h.1 ≤ 0 then ((620 : Int), h.2) else (h.1 - 20, h.2)) :: s.positions)
    else if s.direction = RIGHT then
      match s.positions.head? with
      | none => none
      | some h =>
          some ((if h.1 ≥ 620 then ((0 : Int), h.2) else (h.1 + 20, h.2)) :: s.positions)
    else
      some s.positions
  inserted.map (fun ps => { s with positions := ps.take s.length.toNat })

/-- The snake freshly built by `Snake.__init__`. -/
def Snake.init : Snake :=
  { position := (320, 240)
  , positions := [(320, 240)]
  , length := 1
  , direction := RIGHT
  , next_direction := none }

/-- Python `head in list` where `head` may be `None`
(`None in list_of_tuples` is `False`). -/
def headIn (h : Option Cell) (l : List Cell) : Bool :=
  match h with
  | none => false
  | some c => decide (c ∈ l)

/-- Python `head == cell` where `head` may be `None`
(`None == tuple` is `False`). -/
def optEq (h : Option Cell) (c : Cell) : Bool :=
  match h with
  | none => false
  | some x => decide (x = c)

/-- The mutable state touched by one tick's interaction resolution: the
snake plus the `position` attribute of `Apple`, `RottenApple`, `Rock`. -/
structure GameState where
  snake : Snake
  apple : Cell
  rotten_apple : Cell
  rock : Cell
deriving Repr, DecidableEq

/-- Embedding of `game_interaction`, with the three placement loops' sample streams
passed explicitly.  Branch order and conditions follow the source:

1. `head in positions[1:] or length < 1 or head == rock` → reset the
   snake, then re-place apple (occupied: new snake path), rotten apple
   (occupied: new snake path + apple), rock (occupied: new snake path +
   apple + rotten apple);
2. `head == apple` → `length += 1`, re-place apple (occupied: snake path
   + rotten apple + rock);
3. `head == rotten_apple` → `length -= 1`, re-place rotten apple
   (occupied: snake path + apple + rock);
4. otherwise no change. -/
def game_interaction (st : GameState)
    (apple_samples rotten_samples rock_samples : List Cell) : Option GameState :=
  let s := st.snake
  let h := s.get_head_position
  if headIn h (s.positions.drop 1) || decide (s.length < 1) || optEq h st.rock then
    let s' := s.reset
    match Apple.randomize_position s'.positions none none apple_samples with
    | none => none
    | some a =>
      match RottenApple.randomize_position s'.positions a none rotten_samples with
      | none => none
      | some ra =>
        match Rock.randomize_position s'.positions a ra rock_samples with
        | none => none
        | some rk => some ⟨s', a, ra, rk⟩
  else if optEq h st.apple then
    match Apple.randomize_position s.positions (some st.rotten_apple) (some st.rock)
        apple_samples with
    | none => none
    | some a => some ⟨{ s with length := s.length + 1 }, a, st.rotten_apple, st.rock⟩
  else if optEq h st.rotten_apple then
    match RottenApple.randomize_position s.positions st.apple (some st.rock)
        rotten_samples with
    | none => none
    | some ra => some ⟨{ s with length := s.length - 1 }, st.apple, ra, st.rock⟩
  else
    some st

/-- A sample accepted against an occupied cell differs from it as a cell. -/
theorem bothDiffer_ne {c p : Cell} (h : bothDiffer c p = true) : c ≠ p := by
  unfold bothDiffer at h
  simp only [Bool.and_eq_true, decide_eq_true_eq] at h
  intro hcp
  exact h.1 (by rw [hcp])

/-- Coordinate-wise reading of a passed `bothDiffer` test. -/
theorem bothDiffer_spec {c p : Cell} (h : bothDiffer c p = true) :
    c.1 ≠ p.1 ∧ c.2 ≠ p.2 := by
  unfold bothDiffer at h
  simpa using h

/-- Coordinate-wise reading of a passed `bothDifferOpt` test. -/
theorem bothDifferOpt_spec {c : Cell} {p : Option Cell}
    (h : bothDifferOpt c p = true) :
    ∀ z, p = some z → c.1 ≠ z.1 ∧ c.2 ≠ z.2 := by
  intro z hz
  subst hz
  exact bothDiffer_spec h

/-- A passed `List.all (bothDiffer c)` test, coordinate-wise. -/
theorem all_bothDiffer_spec {c : Cell} {l : List Cell}
    (h : l.all (bothDiffer c) = true) :
    ∀ z ∈ l, c.1 ≠ z.1 ∧ c.2 ≠ z.2 := by
  intro z hz
  exact bothDiffer_spec (List.all_eq_true.mp h z hz)

/-- A cell that differs from `p` in the first coordinate differs from `p`. -/
theorem ne_of_fst_ne {c p : Cell} (h : c.1 ≠ p.1) : c ≠ p := by
  intro hcp; exact h (by rw [hcp])

/-- Reading of a passed `appleAccepts` test. -/
theorem appleAccepts_spec {sp : List Cell} {op oq : Option Cell} {c : Cell}
    (h : appleAccepts sp op oq c = true) :
    (∀ z ∈ sp, c.1 ≠ z.1 ∧ c.2 ≠ z.2)
    ∧ (∀ z, op = some z → c.1 ≠ z.1 ∧ c.2 ≠ z.2)
    ∧ (∀ z, oq = some z → c.1 ≠ z.1 ∧ c.2 ≠ z.2) := by
  unfold appleAccepts at h
  simp only [Bool.and_eq_true] at h
  exact ⟨all_bothDiffer_spec h.1.1, bothDifferOpt_spec h.1.2, bothDifferOpt_spec h.2⟩

/-- Reading of a passed `rottenAccepts` test. -/
theorem rottenAccepts_spec {sp : List Cell} {p : Cell} {oq : Option Cell} {c : Cell}
    (h : rottenAccepts sp p oq c = true) :
    (∀ z ∈ sp, c.1 ≠ z.1 ∧ c.2 ≠ z.2)
    ∧ (c.1 ≠ p.1 ∧ c.2 ≠ p.2)
    ∧ (∀ z, oq = some z → c.1 ≠ z.1 ∧ c.2 ≠ z.2) := by
  unfold rottenAccepts at h
  simp only [Bool.and_eq_true] at h
  exact ⟨all_bothDiffer_spec h.1.1, bothDiffer_spec h.1.2, bothDifferOpt_spec h.2⟩

/-- Reading of a passed `rockAccepts` test. -/
theorem rockAccepts_spec {sp : List Cell} {p q : Cell} {c : Cell}
    (h : rockAccepts sp p q c = true) :
    (∀ z ∈ sp, c.1 ≠ z.1 ∧ c.2 ≠ z.2)
    ∧ (c.1 ≠ p.1 ∧ c.2 ≠ p.2)
    ∧ (c.1 ≠ q.1 ∧ c.2 ≠ q.2) := by
  unfold rockAccepts at h
  simp only [Bool.and_eq_true] at h
  exact ⟨all_bothDiffer_spec h.1.1, bothDiffer_spec h.1.2, bothDiffer_spec h.2⟩

/-- Both-coordinate difference from every member rules out membership. -/
theorem notMem_of_all_fst_ne {c : Cell} {l : List Cell}
    (h : ∀ z ∈ l, c.1 ≠ z.1 ∧ c.2 ≠ z.2) : c ∉ l := by
  intro hc
  exact (h c hc).1 rfl

/-- A found sample drawn from an all-valid sample stream is a grid cell. -/
theorem inGrid_of_find? {samples : List Cell} {pr : Cell → Bool} {c : Cell}
    (hs : samples.all validSample = true) (h : samples.find? pr = some c) :
    inGrid c := by
  have hmem := List.mem_of_find?_eq_some h
  have := List.all_eq_true.mp hs c hmem
  exact of_decide_eq_true this

/-- C9: every placement routine that returns does so with a cell that
differs from every supplied occupied position in BOTH coordinates —
the accept test `x != part[0] and y != part[1]` excludes the whole row
and the whole column of each occupied cell, strictly stronger than mere
cell inequality. -/
theorem c9_placement_excludes_row_and_column
    (sp : List Cell) (p q : Cell) (op oq : Option Cell)
    (samples : List Cell) (c : Cell) :
    (Apple.randomize_position sp op oq samples = some c →
      (∀ z ∈ sp, c.1 ≠ z.1 ∧ c.2 ≠ z.2)
      ∧ (∀ z, op = some z → c.1 ≠ z.1 ∧ c.2 ≠ z.2)
      ∧ (∀ z, oq = some z → c.1 ≠ z.1 ∧ c.2 ≠ z.2))
    ∧ (RottenApple.randomize_position sp p oq samples = some c →
      (∀ z ∈ sp, c.1 ≠ z.1 ∧ c.2 ≠ z.2)
      ∧ (c.1 ≠ p.1 ∧ c.2 ≠ p.2)
      ∧ (∀ z, oq = some z → c.1 ≠ z.1 ∧ c.2 ≠ z.2))
    ∧ (Rock.randomize_position sp p q samples = some c →
      (∀ z ∈ sp, c.1 ≠ z.1 ∧ c.2 ≠ z.2)
      ∧ (c.1 ≠ p.1 ∧ c.2 ≠ p.2)
      ∧ (c.1 ≠ q.1 ∧ c.2 ≠ q.2)) := by
  refine ⟨fun h => ?_, fun h => ?_, fun h => ?_⟩
  · exact appleAccepts_spec (List.find?_some h)
  · exact rottenAccepts_spec (List.find?_some h)
  · exact rockAccepts_spec (List.find?_some h)

/-- C9 witness: placement over one snake cell, an apple, a rotten apple
and a rock; each routine returns the sample `(60, 60)` and the
both-coordinate exclusions hold of it. -/
theorem c9_placement_excludes_row_and_column_witness :
    ((∀ z ∈ [((0 : Int), (0 : Int))], (60 : Int) ≠ z.1 ∧ (60 : Int) ≠ z.2)
      ∧ (∀ z, (some ((20 : Int), (20 : Int)) : Option Cell) = some z →
          (60 : Int) ≠ z.1 ∧ (60 : Int) ≠ z.2)
      ∧ (∀ z, (some ((40 : Int), (40 : Int)) : Option Cell) = some z →
          (60 : Int) ≠ z.1 ∧ (60 : Int) ≠ z.2))
    ∧ ((∀ z ∈ [((0 : Int), (0 : Int))], (60 : Int) ≠ z.1 ∧ (60 : Int) ≠ z.2)
      ∧ ((60 : Int) ≠ (20 : Int) ∧ (60 : Int) ≠ (20 : Int))
      ∧ (∀ z, (some ((40 : Int), (40 : Int)) : Option Cell) = some z →
          (60 : Int) ≠ z.1 ∧ (60 : Int) ≠ z.2))
    ∧ ((∀ z ∈ [((0 : Int), (0 : Int))], (60 : Int) ≠ z.1 ∧ (60 : Int) ≠ z.2)
      ∧ ((60 : Int) ≠ (20 : Int) ∧ (60 : Int) ≠ (20 : Int))
      ∧ ((60 : Int) ≠ (40 : Int) ∧ (60 : Int) ≠ (40 : Int))) :=
  ⟨(c9_placement_excludes_row_and_column [(0, 0)] (20, 20) (40, 40)
      (some (20, 20)) (some (40, 40)) [(0, 20), (60, 60)] (60, 60)).1 (by decide),
   (c9_placement_excludes_row_and_column [(0, 0)] (20, 20) (40, 40)
      (some (20, 20)) (some (40, 40)) [(0, 20), (60, 60)] (60, 60)).2.1 (by decide),
   (c9_placement_excludes_row_and_column [(0, 0)] (20, 20) (40, 40)
      (some (20, 20)) (some (40, 40)) [(0, 20), (60, 60)] (60, 60)).2.2 (by decide)⟩

/-- C3: every placement routine that returns, fed samples of the form
`randint(0, GRID_WIDTH-1)*20 × randint(0, GRID_HEIGHT-1)*20`, returns a
cell that is not a member of the supplied occupied set (snake path plus
the supplied item cells) and lies within `[0, 640) × [0, 480)` aligned to
the 20-pixel cell size. -/
theorem c3_placement_free_and_in_bounds
    (sp : List Cell) (p q : Cell) (op oq : Option Cell)
    (samples : List Cell) (c : Cell)
    (hs : samples.all validSample = true) :
    (Apple.randomize_position sp op oq samples = some c →
      c ∉ sp ∧ (∀ z, op = some z → c ≠ z) ∧ (∀ z, oq = some z → c ≠ z) ∧ inGrid c)
    ∧ (RottenApple.randomize_position sp p oq samples = some c →
      c ∉ sp ∧ c ≠ p ∧ (∀ z, oq = some z → c ≠ z) ∧ inGrid c)
    ∧ (Rock.randomize_position sp p q samples = some c →
      c ∉ sp ∧ c ≠ p ∧ c ≠ q ∧ inGrid c) := by
  refine ⟨fun h => ?_, fun h => ?_, fun h => ?_⟩
  · obtain ⟨h1, h2, h3⟩ := appleAccepts_spec (List.find?_some h)
    exact ⟨notMem_of_all_fst_ne h1,
      fun z hz => ne_of_fst_ne (h2 z hz).1,
      fun z hz => ne_of_fst_ne (h3 z hz).1,
      inGrid_of_find? hs h⟩
  · obtain ⟨h1, h2, h3⟩ := rottenAccepts_spec (List.find?_some h)
    exact ⟨notMem_of_all_fst_ne h1, ne_of_fst_ne h2.1,
      fun z hz => ne_of_fst_ne (h3 z hz).1,
      inGrid_of_find? hs h⟩
  · obtain ⟨h1, h2, h3⟩ := rockAccepts_spec (List.find?_some h)
    exact ⟨notMem_of_all_fst_ne h1, ne_of_fst_ne h2.1, ne_of_fst_ne h3.1,
      inGrid_of_find? hs h⟩

/-- C3 witness: with grid-aligned samples `[(0, 20), (60, 60)]`, each
routine returns `(60, 60)`, which avoids the occupied cells and is a
grid cell. -/
theorem c3_placement_free_and_in_bounds_witness :
    (((60 : Int), (60 : Int)) ∉ [((0 : Int), (0 : Int))]
      ∧ (∀ z, (some ((20 : Int), (20 : Int)) : Option Cell) = some z →
          ((60 : Int), (60 : Int)) ≠ z)
      ∧ (∀ z, (some ((40 : Int), (40 : Int)) : Option Cell) = some z →
          ((60 : Int), (60 : Int)) ≠ z)
      ∧ inGrid (60, 60))
    ∧ (((60 : Int), (60 : Int)) ∉ [((0 : Int), (0 : Int))]
      ∧ ((60 : Int), (60 : Int)) ≠ ((20 : Int), (20 : Int))
      ∧ (∀ z, (some ((40 : Int), (40 : Int)) : Option Cell) = some z →
          ((60 : Int), (60 : Int)) ≠ z)
      ∧ inGrid (60, 60))
    ∧ (((60 : Int), (60 : Int)) ∉ [((0 : Int), (0 : Int))]
      ∧ ((60 : Int), (60 : Int)) ≠ ((20 : Int), (20 : Int))
      ∧ ((60 : Int), (60 : Int)) ≠ ((40 : Int), (40 : Int))
      ∧ inGrid (60, 60)) :=
  ⟨(c3_placement_free_and_in_bounds [(0, 0)] (20, 20) (40, 40)
      (some (20, 20)) (some (40, 40)) [(0, 20), (60, 60)] (60, 60) (by decide)).1
      (by decide),
   (c3_placement_free_and_in_bounds [(0, 0)] (20, 20) (40, 40)
      (some (20, 20)) (some (40, 40)) [(0, 20), (60, 60)] (60, 60) (by decide)).2.1
      (by decide),
   (c3_placement_free_and_in_bounds [(0, 0)] (20, 20) (40, 40)
      (some (20, 20)) (some (40, 40)) [(0, 20), (60, 60)] (60, 60) (by decide)).2.2
      (by decide)⟩

/-- Computation of `Snake.move` when the direction is `UP`. -/
theorem move_cons_up (s : Snake) (h : s.direction = UP) (c : Cell) (rest : List Cell)
    (hpos : s.positions = c :: rest) :
    s.move = some { s with positions :=
      (((if c.2 ≤ 0 then (c.1, (460 : Int)) else (c.1, c.2 - 20)) :: c :: rest).take
        s.length.toNat) } := by
  unfold Snake.move
  rw [hpos, h]
  simp [UP]

/-- Computation of `Snake.move` when the direction is `DOWN`. -/
theorem move_cons_down (s : Snake) (h : s.direction = DOWN) (c : Cell) (rest : List Cell)
    (hpos : s.positions = c :: rest) :
    s.move = some { s with positions :=
      (((if c.2 ≥ 460 then (c.1, (0 : Int)) else (c.1, c.2 + 20)) :: c :: rest).take
        s.length.toNat) } := by
  unfold Snake.move
  rw [hpos, h]
  simp [UP, DOWN]

/-- Computation of `Snake.move` when the direction is `LEFT`. -/
theorem move_cons_left (s : Snake) (h : s.direction = LEFT) (c : Cell) (rest : List Cell)
    (hpos : s.positions = c :: rest) :
    s.move = some { s with positions :=
      (((if c.1 ≤ 0 then ((620 : Int), c.2) else (c.1 - 20, c.2)) :: c :: rest).take
        s.length.toNat) } := by
  unfold Snake.move
  rw [hpos, h]
  simp [UP, DOWN, LEFT]

/-- Computation of `Snake.move` when the direction is `RIGHT`. -/
theorem move_cons_right (s : Snake) (h : s.direction = RIGHT) (c : Cell) (rest : List Cell)
    (hpos : s.positions = c :: rest) :
    s.move = some { s with positions :=
      (((if c.1 ≥ 620 then ((0 : Int), c.2) else (c.1 + 20, c.2)) :: c :: rest).take
        s.length.toNat) } := by
  unfold Snake.move
  rw [hpos, h]
  simp [UP, DOWN, LEFT, RIGHT]

/-- Head of a truncation of a non-trivial cons list. -/
theorem head_after_take (nh c : Cell) (rest : List Cell) (n : Nat) (hn : n = m + 1) :
    ((nh :: c :: rest).take n).head? = some nh := by
  subst hn
  rw [List.take_succ_cons]
  rfl

/-- C6: movement wraps toroidally — from a grid-aligned in-bounds head,
`move` succeeds, the new head is again inside `[0, 640) × [0, 480)`, and
at each of the four edges the head reappears on the opposite edge in the
same row/column (right edge x = 620 → x = 0, left edge x = 0 → x = 620,
top edge y = 0 → y = 460, bottom edge y = 460 → y = 0). -/
theorem c6_move_wraps_toroidally (s : Snake) (x y : Int) (rest : List Cell)
    (hpos : s.positions = (x, y) :: rest) (hg : inGrid (x, y)) (hl : 1 ≤ s.length)
    (hdir : s.direction = UP ∨ s.direction = DOWN ∨ s.direction = LEFT
      ∨ s.direction = RIGHT) :
    ∃ s' nh, s.move = some s' ∧ s'.positions.head? = some nh ∧ inGrid nh
      ∧ (s.direction = UP → y = 0 → nh = (x, 460))
      ∧ (s.direction = DOWN → y = 460 → nh = (x, 0))
      ∧ (s.direction = LEFT → x = 0 → nh = (620, y))
      ∧ (s.direction = RIGHT → x = 620 → nh = (0, y)) := by
  obtain ⟨n, hn⟩ : ∃ n, s.length.toNat = n + 1 := ⟨s.length.toNat - 1, by omega⟩
  obtain ⟨⟨hx1, hx2, hx3⟩, hy1, hy2, hy3⟩ := hg
  rcases hdir with hd | hd | hd | hd
  · refine ⟨_, (if y ≤ 0 then (x, (460 : Int)) else (x, y - 20)),
      move_cons_up s hd (x, y) rest hpos, ?_, ?_, ?_, ?_, ?_, ?_⟩
    · exact head_after_take _ _ _ _ hn
    · split_ifs with h0
      · exact ⟨⟨hx1, hx2, hx3⟩, by omega⟩
      · exact ⟨⟨hx1, hx2, hx3⟩, by omega⟩
    · intro _ hy; subst hy; rw [if_pos le_rfl]
    · intro h'; rw [hd] at h'; exact absurd h' (by decide)
    · intro h'; rw [hd] at h'; exact absurd h' (by decide)
    · intro h'; rw [hd] at h'; exact absurd h' (by decide)
  · refine ⟨_, (if y ≥ 460 then (x, (0 : Int)) else (x, y + 20)),
      move_cons_down s hd (x, y) rest hpos, ?_, ?_, ?_, ?_, ?_, ?_⟩
    · exact head_after_take _ _ _ _ hn
    · split_ifs with h0
      · exact ⟨⟨hx1, hx2, hx3⟩, by omega⟩
      · exact ⟨⟨hx1, hx2, hx3⟩, by omega⟩
    · intro h'; rw [hd] at h'; exact absurd h' (by decide)
    · intro _ hy; subst hy; rw [if_pos le_rfl]
    · intro h'; rw [hd] at h'; exact absurd h' (by decide)
    · intro h'; rw [hd] at h'; exact absurd h' (by decide)
  · refine ⟨_, (if x ≤ 0 then ((620 : Int), y) else (x - 20, y)),
      move_cons_left s hd (x, y) rest hpos, ?_, ?_, ?_, ?_, ?_, ?_⟩
    · exact head_after_take _ _ _ _ hn
    · split_ifs with h0
      · exact ⟨by omega, hy1, hy2, hy3⟩
      · exact ⟨by omega, hy1, hy2, hy3⟩
    · intro h'; rw [hd] at h'; exact absurd h' (by decide)
    · intro h'; rw [hd] at h'; exact absurd h' (by decide)
    · intro _ hx; subst hx; rw [if_pos le_rfl]
    · intro h'; rw [hd] at h'; exact absurd h' (by decide)
  · refine ⟨_, (if x ≥ 620 then ((0 : Int), y) else (x + 20, y)),
      move_cons_right s hd (x, y) rest hpos, ?_, ?_, ?_, ?_, ?_, ?_⟩
    · exact head_after_take _ _ _ _ hn
    · split_ifs with h0
      · exact ⟨by omega, hy1, hy2, hy3⟩
      · exact ⟨by omega, hy1, hy2, hy3⟩
    · intro h'; rw [hd] at h'; exact absurd h' (by decide)
    · intro h'; rw [hd] at h'; exact absurd h' (by decide)
    · intro h'; rw [hd] at h'; exact absurd h' (by decide)
    · intro _ hx; subst hx; rw [if_pos le_rfl]

/-- C6 witness: a length-1 snake at the rightmost column cell
`(620, 100)` heading `RIGHT`; its move wraps to the leftmost column. -/
theorem c6_move_wraps_toroidally_witness :
    ∃ s' nh,
      (Snake.mk (320, 240) [((620 : Int), (100 : Int))] 1 RIGHT none).move = some s'
      ∧ s'.positions.head? = some nh ∧ inGrid nh
      ∧ ((Snake.mk (320, 240) [((620 : Int), (100 : Int))] 1 RIGHT none).direction = UP →
          (100 : Int) = 0 → nh = (620, 460))
      ∧ ((Snake.mk (320, 240) [((620 : Int), (100 : Int))] 1 RIGHT none).direction = DOWN →
          (100 : Int) = 460 → nh = (620, 0))
      ∧ ((Snake.mk (320, 240) [((620 : Int), (100 : Int))] 1 RIGHT none).direction = LEFT →
          (620 : Int) = 0 → nh = (620, 100))
      ∧ ((Snake.mk (320, 240) [((620 : Int), (100 : Int))] 1 RIGHT
          none).direction = RIGHT →
          (620 : Int) = 620 → nh = (0, 100)) :=
  c6_move_wraps_toroidally (Snake.mk (320, 240) [(620, 100)] 1 RIGHT none)
    620 100 [] rfl (by decide) (by decide) (Or.inr (Or.inr (Or.inr rfl)))

/-- C7 counterexample: `Snake.reset` is a pure function that always sets
`direction = RIGHT`; resetting a snake that was heading `UP` yields
`RIGHT`, so the post-reset direction is not a uniformly random draw from
{UP, DOWN, LEFT, RIGHT} (UP, DOWN and LEFT can never occur). -/
theorem c7_reset_direction_not_random_counterexample :
    (Snake.mk (320, 240) [((100 : Int), (100 : Int))] 3 UP (some DOWN)).reset.direction
        = RIGHT
    ∧ RIGHT ≠ UP ∧ RIGHT ≠ DOWN ∧ RIGHT ≠ LEFT := by
  decide

/-- C7 amended: `reset` sets the path to the single spawn cell
(`self.position`), length to 1, clears `next_direction`, and sets the
direction deterministically to `RIGHT` (not to a random direction). -/
theorem c7_reset_spec (s : Snake) :
    s.reset.positions = [s.position]
    ∧ s.reset.length = 1
    ∧ s.reset.direction = RIGHT
    ∧ s.reset.next_direction = none :=
  ⟨rfl, rfl, rfl, rfl⟩

/-- C10: `get_head_position` returns the first path cell on a non-empty
path and `None` on an empty path, without raising; the empty path is
reachable, since `move` on a snake whose `length` has reached 0
truncates the path to the empty list. -/
theorem c10_get_head_position_total :
    (∀ s : Snake, s.positions = [] → s.get_head_position = none)
    ∧ (∀ (s : Snake) (c : Cell) (cs : List Cell),
        s.positions = c :: cs → s.get_head_position = some c)
    ∧ (∃ s s' : Snake,
        s.length = 0 ∧ s.positions ≠ [] ∧ s.move = some s' ∧ s'.positions = []) := by
  refine ⟨?_, ?_, ?_⟩
  · intro s h
    unfold Snake.get_head_position
    rw [h]
    rfl
  · intro s c cs h
    unfold Snake.get_head_position
    rw [h]
    rfl
  · exact ⟨Snake.mk (320, 240) [(100, 100)] 0 RIGHT none,
      Snake.mk (320, 240) [] 0 RIGHT none, by decide, by decide, by decide, rfl⟩

/-- C10 witness: head access at a concrete empty-path snake and at a
concrete one-cell snake. -/
theorem c10_get_head_position_total_witness :
    (Snake.mk (320, 240) [] 1 RIGHT none).get_head_position = none
    ∧ (Snake.mk (320, 240) [((100 : Int), (100 : Int))] 1 RIGHT
        none).get_head_position = some (100, 100) :=
  ⟨c10_get_head_position_total.1 (Snake.mk (320, 240) [] 1 RIGHT none) rfl,
   c10_get_head_position_total.2.1
     (Snake.mk (320, 240) [(100, 100)] 1 RIGHT none) (100, 100) [] rfl⟩

/-- When the fatal-collision condition holds and `game_interaction`
returns, all three re-placements succeeded and the result is the reset
snake with the three newly placed cells. -/
theorem game_interaction_fatal {st : GameState} {aS rS kS : List Cell}
    (hc : (headIn st.snake.get_head_position (st.snake.positions.drop 1)
        || decide (st.snake.length < 1)
        || optEq st.snake.get_head_position st.rock) = true)
    {st' : GameState} (h : game_interaction st aS rS kS = some st') :
    ∃ a ra rk,
      Apple.randomize_position st.snake.reset.positions none none aS = some a
      ∧ RottenApple.randomize_position st.snake.reset.positions a none rS = some ra
      ∧ Rock.randomize_position st.snake.reset.positions a ra kS = some rk
      ∧ st' = ⟨st.snake.reset, a, ra, rk⟩ := by
  simp only [game_interaction] at h
  rw [hc] at h
  simp only [if_true] at h
  cases hA : Apple.randomize_position st.snake.reset.positions none none aS with
  | none => rw [hA] at h; exact absurd h (by simp)
  | some a =>
    rw [hA] at h
    dsimp only at h
    cases hR : RottenApple.randomize_position st.snake.reset.positions a none rS with
    | none => rw [hR] at h; exact absurd h (by simp)
    | some ra =>
      rw [hR] at h
      dsimp only at h
      cases hK : Rock.randomize_position st.snake.reset.positions a ra kS with
      | none => rw [hK] at h; exact absurd h (by simp)
      | some rk =>
        rw [hK] at h
        dsimp only at h
        exact ⟨a, ra, rk, rfl, hR, hK, (Option.some_injective _ h).symm⟩

/-- When only the apple-consumption condition holds and
`game_interaction` returns, the snake grew by one and the apple was
re-placed against the snake path, rotten apple and rock. -/
theorem game_interaction_apple_branch {st : GameState} {aS rS kS : List Cell}
    (hc : (headIn st.snake.get_head_position (st.snake.positions.drop 1)
        || decide (st.snake.length < 1)
        || optEq st.snake.get_head_position st.rock) = false)
    (ha : optEq st.snake.get_head_position st.apple = true)
    {st' : GameState} (h : game_interaction st aS rS kS = some st') :
    ∃ a, Apple.randomize_position st.snake.positions (some st.rotten_apple)
        (some st.rock) aS = some a
      ∧ st' = ⟨{ st.snake with length := st.snake.length + 1 },
          a, st.rotten_apple, st.rock⟩ := by
  simp only [game_interaction] at h
  rw [hc] at h
  simp only [Bool.false_eq_true, if_false] at h
  rw [ha] at h
  simp only [if_true] at h
  cases hA : Apple.randomize_position st.snake.positions (some st.rotten_apple)
      (some st.rock) aS with
  | none => rw [hA] at h; exact absurd h (by simp)
  | some a =>
    rw [hA] at h
    dsimp only at h
    exact ⟨a, rfl, (Option.some_injective _ h).symm⟩

/-- When only the rotten-apple-consumption condition holds and
`game_interaction` returns, the snake length decreased by one
(unclamped) and the rotten apple was re-placed. -/
theorem game_interaction_rotten_branch {st : GameState} {aS rS kS : List Cell}
    (hc : (headIn st.snake.get_head_position (st.snake.positions.drop 1)
        || decide (st.snake.length < 1)
        || optEq st.snake.get_head_position st.rock) = false)
    (ha : optEq st.snake.get_head_position st.apple = false)
    (hr : optEq st.snake.get_head_position st.rotten_apple = true)
    {st' : GameState} (h : game_interaction st aS rS kS = some st') :
    ∃ ra, RottenApple.randomize_position st.snake.positions st.apple
        (some st.rock) rS = some ra
      ∧ st' = ⟨{ st.snake with length := st.snake.length - 1 },
          st.apple, ra, st.rock⟩ := by
  simp only [game_interaction] at h
  rw [hc] at h
  simp only [Bool.false_eq_true, if_false] at h
  rw [ha] at h
  simp only [Bool.false_eq_true, if_false] at h
  rw [hr] at h
  simp only [if_true] at h
  cases hR : RottenApple.randomize_position st.snake.positions st.apple
      (some st.rock) rS with
  | none => rw [hR] at h; exact absurd h (by simp)
  | some ra =>
    rw [hR] at h
    dsimp only at h
    exact ⟨ra, rfl, (Option.some_injective _ h).symm⟩

/-- When no condition holds, `game_interaction` leaves the state
unchanged. -/
theorem game_interaction_noop_branch {st : GameState} {aS rS kS : List Cell}
    (hc : (headIn st.snake.get_head_position (st.snake.positions.drop 1)
        || decide (st.snake.length < 1)
        || optEq st.snake.get_head_position st.rock) = false)
    (ha : optEq st.snake.get_head_position st.apple = false)
    (hr : optEq st.snake.get_head_position st.rotten_apple = false)
    {st' : GameState} (h : game_interaction st aS rS kS = some st') :
    st' = st := by
  simp only [game_interaction] at h
  rw [hc] at h
  simp only [Bool.false_eq_true, if_false] at h
  rw [ha] at h
  simp only [Bool.false_eq_true, if_false] at h
  rw [hr] at h
  simp only [Bool.false_eq_true, if_false] at h
  exact (Option.some_injective _ h).symm

/-- C4: fatal collisions take priority — if after `move` the head
coincides with both the Rock's and the Apple's cell, the tick's outcome
is a full session reset (snake back to the single spawn cell, length 1);
the apple branch is skipped, so the snake does not grow. -/
theorem c4_fatal_priority_over_growth (st : GameState) (aS rS kS : List Cell) (c : Cell)
    (hh : st.snake.get_head_position = some c) (hrk : c = st.rock) (_hap : c = st.apple)
    (st' : GameState) (h : game_interaction st aS rS kS = some st') :
    st'.snake = st.snake.reset ∧ st'.snake.length = 1
    ∧ st'.snake.positions = [st.snake.position] := by
  have hc : (headIn st.snake.get_head_position (st.snake.positions.drop 1)
      || decide (st.snake.length < 1)
      || optEq st.snake.get_head_position st.rock) = true := by
    rw [hh]
    simp [optEq, hrk]
  obtain ⟨a, ra, rk, _, _, _, rfl⟩ := game_interaction_fatal hc h
  exact ⟨rfl, rfl, rfl⟩

/-- C4 witness: head `(100, 100)` equal to both rock and apple; the
resolver resets the snake to the spawn cell. -/
theorem c4_fatal_priority_over_growth_witness :
    (GameState.mk (Snake.mk (320, 240) [(320, 240)] 1 RIGHT none)
        (360, 280) (400, 300) (440, 320)).snake
      = (GameState.mk (Snake.mk (320, 240) [((100 : Int), (100 : Int))] 1 RIGHT none)
          (100, 100) (200, 200) (100, 100)).snake.reset
    ∧ (GameState.mk (Snake.mk (320, 240) [(320, 240)] 1 RIGHT none)
        (360, 280) (400, 300) (440, 320)).snake.length = 1
    ∧ (GameState.mk (Snake.mk (320, 240) [(320, 240)] 1 RIGHT none)
        (360, 280) (400, 300) (440, 320)).snake.positions
      = [(GameState.mk (Snake.mk (320, 240) [((100 : Int), (100 : Int))] 1 RIGHT none)
          (100, 100) (200, 200) (100, 100)).snake.position] :=
  c4_fatal_priority_over_growth
    (GameState.mk (Snake.mk (320, 240) [(100, 100)] 1 RIGHT none)
      (100, 100) (200, 200) (100, 100))
    [(360, 280)] [(400, 300)] [(440, 320)] (100, 100)
    rfl rfl rfl
    (GameState.mk (Snake.mk (320, 240) [(320, 240)] 1 RIGHT none)
      (360, 280) (400, 300) (440, 320))
    (by decide)

/-- C8: on any tick whose resolver outcome is apple consumption,
rotten-apple consumption, or no-op (i.e. the fatal-collision condition is
false), the rock's position after the tick equals its position before —
the rock is re-placed only on game reset. -/
theorem c8_rock_stable_without_reset (st : GameState) (aS rS kS : List Cell)
    (hc : (headIn st.snake.get_head_position (st.snake.positions.drop 1)
        || decide (st.snake.length < 1)
        || optEq st.snake.get_head_position st.rock) = false)
    (st' : GameState) (h : game_interaction st aS rS kS = some st') :
    st'.rock = st.rock := by
  by_cases ha : optEq st.snake.get_head_position st.apple = true
  · obtain ⟨a, _, rfl⟩ := game_interaction_apple_branch hc ha h
    rfl
  · have ha' : optEq st.snake.get_head_position st.apple = false := by
      simpa using ha
    by_cases hr : optEq st.snake.get_head_position st.rotten_apple = true
    · obtain ⟨ra, _, rfl⟩ := game_interaction_rotten_branch hc ha' hr h
      rfl
    · have hr' : optEq st.snake.get_head_position st.rotten_apple = false := by
        simpa using hr
      rw [game_interaction_noop_branch hc ha' hr' h]

/-- C8 witness: an apple-consumption tick (head on the apple) leaves the
rock at `(240, 240)`. -/
theorem c8_rock_stable_without_reset_witness :
    (GameState.mk (Snake.mk (320, 240) [(200, 200)] 2 RIGHT none)
        (400, 300) (220, 220) (240, 240)).rock
      = (GameState.mk (Snake.mk (320, 240) [((200 : Int), (200 : Int))] 1 RIGHT none)
          (200, 200) (220, 220) (240, 240)).rock :=
  c8_rock_stable_without_reset
    (GameState.mk (Snake.mk (320, 240) [(200, 200)] 1 RIGHT none)
      (200, 200) (220, 220) (240, 240))
    [(400, 300)] [] [] (by decide)
    (GameState.mk (Snake.mk (320, 240) [(200, 200)] 2 RIGHT none)
      (400, 300) (220, 220) (240, 240))
    (by decide)

/-- C5: when the fatal-collision branch completes (snake reset, then
apple, rotten apple and rock re-placed in order with accumulating
occupied sets), no two of the four entities share a cell. -/
theorem c5_reset_branch_no_overlap (st : GameState) (aS rS kS : List Cell)
    (hc : (headIn st.snake.get_head_position (st.snake.positions.drop 1)
        || decide (st.snake.length < 1)
        || optEq st.snake.get_head_position st.rock) = true)
    (st' : GameState) (h : game_interaction st aS rS kS = some st') :
    st'.apple ∉ st'.snake.positions
    ∧ st'.rotten_apple ∉ st'.snake.positions
    ∧ st'.rock ∉ st'.snake.positions
    ∧ st'.apple ≠ st'.rotten_apple
    ∧ st'.apple ≠ st'.rock
    ∧ st'.rotten_apple ≠ st'.rock := by
  obtain ⟨a, ra, rk, hA, hR, hK, rfl⟩ := game_interaction_fatal hc h
  obtain ⟨hA1, -, -⟩ := appleAccepts_spec (List.find?_some hA)
  obtain ⟨hR1, hR2, -⟩ := rottenAccepts_spec (List.find?_some hR)
  obtain ⟨hK1, hK2, hK3⟩ := rockAccepts_spec (List.find?_some hK)
  exact ⟨notMem_of_all_fst_ne hA1, notMem_of_all_fst_ne hR1, notMem_of_all_fst_ne hK1,
    (ne_of_fst_ne hR2.1).symm, (ne_of_fst_ne hK2.1).symm, (ne_of_fst_ne hK3.1).symm⟩

/-- C5 witness: a head-on-rock collision at `(100, 100)`; after the
reset branch the snake sits at `(320, 240)` and apple, rotten apple and
rock occupy three further pairwise distinct cells. -/
theorem c5_reset_branch_no_overlap_witness :
    (GameState.mk (Snake.mk (320, 240) [(320, 240)] 1 RIGHT none)
        (360, 280) (400, 300) (440, 320)).apple
      ∉ (GameState.mk (Snake.mk (320, 240) [((320 : Int), (240 : Int))] 1 RIGHT none)
          (360, 280) (400, 300) (440, 320)).snake.positions
    ∧ (GameState.mk (Snake.mk (320, 240) [(320, 240)] 1 RIGHT none)
        (360, 280) (400, 300) (440, 320)).rotten_apple
      ∉ (GameState.mk (Snake.mk (320, 240) [((320 : Int), (240 : Int))] 1 RIGHT none)
          (360, 280) (400, 300) (440, 320)).snake.positions
    ∧ (GameState.mk (Snake.mk (320, 240) [(320, 240)] 1 RIGHT none)
        (360, 280) (400, 300) (440, 320)).rock
      ∉ (GameState.mk (Snake.mk (320, 240) [((320 : Int), (240 : Int))] 1 RIGHT none)
          (360, 280) (400, 300) (440, 320)).snake.positions
    ∧ (GameState.mk (Snake.mk (320, 240) [(320, 240)] 1 RIGHT none)
        (360, 280) (400, 300) (440, 320)).apple
      ≠ (GameState.mk (Snake.mk (320, 240) [((320 : Int), (240 : Int))] 1 RIGHT none)
          (360, 280) (400, 300) (440, 320)).rotten_apple
    ∧ (GameState.mk (Snake.mk (320, 240) [(320, 240)] 1 RIGHT none)
        (360, 280) (400, 300) (440, 320)).apple
      ≠ (GameState.mk (Snake.mk (320, 240) [((320 : Int), (240 : Int))] 1 RIGHT none)
          (360, 280) (400, 300) (440, 320)).rock
    ∧ (GameState.mk (Snake.mk (320, 240) [(320, 240)] 1 RIGHT none)
        (360, 280) (400, 300) (440, 320)).rotten_apple
      ≠ (GameState.mk (Snake.mk (320, 240) [((320 : Int), (240 : Int))] 1 RIGHT none)
          (360, 280) (400, 300) (440, 320)).rock :=
  c5_reset_branch_no_overlap
    (GameState.mk (Snake.mk (320, 240) [(100, 100)] 1 RIGHT none)
      (200, 200) (220, 220) (100, 100))
    [(360, 280)] [(400, 300)] [(440, 320)] (by decide)
    (GameState.mk (Snake.mk (320, 240) [(320, 240)] 1 RIGHT none)
      (360, 280) (400, 300) (440, 320))
    (by decide)

/-- C2 counterexample: a length-4 snake looped in a 2×2 square moves its
head onto the cell its tail occupied before the move.  The new head
`(20, 0)` equals a cell of the pre-truncation path (it is a member of the
pre-move path, so the path `new head :: old path` holds it twice), yet
the resolver leaves the state unchanged — no reset is triggered, because
the check runs on the post-truncation path from which the duplicate tail
cell has already been deleted. -/
theorem c2_pre_truncation_collision_missed_counterexample :
    (Snake.mk (320, 240) [((0 : Int), (0 : Int)), (0, 20), (20, 20), (20, 0)]
        4 RIGHT none).move
      = some (Snake.mk (320, 240) [(20, 0), (0, 0), (0, 20), (20, 20)] 4 RIGHT none)
    ∧ ((20 : Int), (0 : Int)) ∈ [((0 : Int), (0 : Int)), (0, 20), (20, 20), (20, 0)]
    ∧ game_interaction
        (GameState.mk (Snake.mk (320, 240) [(20, 0), (0, 0), (0, 20), (20, 20)]
          4 RIGHT none) (200, 200) (220, 220) (240, 240)) [] [] []
      = some (GameState.mk (Snake.mk (320, 240) [(20, 0), (0, 0), (0, 20), (20, 20)]
          4 RIGHT none) (200, 200) (220, 220) (240, 240))
    ∧ (Snake.mk ((320 : Int), (240 : Int)) [(20, 0), (0, 0), (0, 20), (20, 20)]
        4 RIGHT none).length ≠ 1 := by
  decide

/-- C2 amended: self-collision detection uses the post-truncation path —
whenever the head equals a cell of the path *after* the tail was removed
(`positions[1:]` of the moved snake), the resolver triggers a full reset
that same tick.  A new head equal only to the tail cell removed by that
tick's truncation is not detected (see the counterexample). -/
theorem c2_self_collision_detected_post_truncation
    (st : GameState) (aS rS kS : List Cell) (c : Cell)
    (hh : st.snake.get_head_position = some c)
    (hmem : c ∈ st.snake.positions.drop 1)
    (st' : GameState) (h : game_interaction st aS rS kS = some st') :
    st'.snake = st.snake.reset := by
  have hmem' : c ∈ st.snake.positions.tail := by simpa using hmem
  have hc : (headIn st.snake.get_head_position (st.snake.positions.drop 1)
      || decide (st.snake.length < 1)
      || optEq st.snake.get_head_position st.rock) = true := by
    rw [hh]
    simp [headIn, hmem']
  obtain ⟨a, ra, rk, _, _, _, rfl⟩ := game_interaction_fatal hc h
  rfl

/-- C2 witness: a snake whose head `(60, 60)` reappears in its
post-truncation tail is reset to the spawn cell. -/
theorem c2_self_collision_detected_post_truncation_witness :
    (GameState.mk (Snake.mk (320, 240) [(320, 240)] 1 RIGHT none)
        (360, 280) (400, 300) (440, 320)).snake
      = (GameState.mk (Snake.mk (320, 240)
          [((60 : Int), (60 : Int)), (80, 60), (80, 80), (60, 80), (60, 60)]
          5 RIGHT none) (200, 200) (220, 220) (240, 240)).snake.reset :=
  c2_self_collision_detected_post_truncation
    (GameState.mk (Snake.mk (320, 240)
      [(60, 60), (80, 60), (80, 80), (60, 80), (60, 60)] 5 RIGHT none)
      (200, 200) (220, 220) (240, 240))
    [(360, 280)] [(400, 300)] [(440, 320)] (60, 60)
    rfl (by decide)
    (GameState.mk (Snake.mk (320, 240) [(320, 240)] 1 RIGHT none)
      (360, 280) (400, 300) (440, 320))
    (by decide)

/-- C1 counterexample: a length-1 snake whose head lands on the rotten
apple.  The resolver's shrink branch sets `length -= 1` with no clamp,
so the resulting length is 0 — strictly below 1 — and the tick completes
without routing through the reset path. -/
theorem c1_shrink_below_one_counterexample :
    game_interaction
      (GameState.mk (Snake.mk (320, 240) [((100 : Int), (100 : Int))] 1 RIGHT none)
        (200, 200) (100, 100) (300, 300)) [] [(140, 140)] []
    = some (GameState.mk (Snake.mk (320, 240) [(100, 100)] 0 RIGHT none)
        (200, 200) (140, 140) (300, 300))
    ∧ ¬ ((1 : Int) ≤ (Snake.mk ((320 : Int), (240 : Int)) [(100, 100)]
        0 RIGHT none).length) := by
  decide

/-- C1 amended: the shrink outcome is NOT clamped — rotten-apple
consumption at length 1 leaves length 0; the below-minimum state is then
routed through the fatal-collision/reset path, but only by the *next*
tick's interaction resolution, whose `length < 1` check triggers a full
reset back to length 1. -/
theorem c1_shrink_unclamped_reset_next_tick :
    (∀ (st : GameState) (aS rS kS : List Cell) (c : Cell) (st' : GameState),
      st.snake.length = 1 →
      st.snake.get_head_position = some c →
      c ∉ st.snake.positions.drop 1 →
      c ≠ st.rock → c ≠ st.apple → c = st.rotten_apple →
      game_interaction st aS rS kS = some st' →
      st'.snake.length = 0)
    ∧ (∀ (st : GameState) (aS rS kS : List Cell) (st' : GameState),
      st.snake.length < 1 →
      game_interaction st aS rS kS = some st' →
      st'.snake = st.snake.reset ∧ st'.snake.length = 1) := by
  constructor
  · intro st aS rS kS c st' hlen hh hnmem hnrk hnap hra h
    have hnmem' : c ∉ st.snake.positions.tail := by simpa using hnmem
    have hc : (headIn st.snake.get_head_position (st.snake.positions.drop 1)
        || decide (st.snake.length < 1)
        || optEq st.snake.get_head_position st.rock) = false := by
      rw [hh, hlen]
      simp [headIn, optEq, hnmem', hnrk]
    have ha : optEq st.snake.get_head_position st.apple = false := by
      rw [hh]
      simp [optEq, hnap]
    have hr : optEq st.snake.get_head_position st.rotten_apple = true := by
      rw [hh]
      simp [optEq, hra]
    obtain ⟨ra, _, rfl⟩ := game_interaction_rotten_branch hc ha hr h
    simp [hlen]
  · intro st aS rS kS st' hlen h
    have hc : (headIn st.snake.get_head_position (st.snake.positions.drop 1)
        || decide (st.snake.length < 1)
        || optEq st.snake.get_head_position st.rock) = true := by
      simp [hlen]
    obtain ⟨a, ra, rk, _, _, _, rfl⟩ := game_interaction_fatal hc h
    exact ⟨rfl, rfl⟩

/-- C1 witness: the shrink tick takes the concrete length-1 snake to
length 0, and the following tick's resolver resets the length-0 snake to
length 1 at the spawn cell. -/
theorem c1_shrink_unclamped_reset_next_tick_witness :
    (GameState.mk (Snake.mk (320, 240) [((100 : Int), (100 : Int))] 0 RIGHT none)
        (200, 200) (140, 140) (300, 300)).snake.length = 0
    ∧ ((GameState.mk (Snake.mk (320, 240) [(320, 240)] 1 RIGHT none)
          (360, 280) (400, 300) (440, 320)).snake
        = (GameState.mk (Snake.mk (320, 240) [((100 : Int), (100 : Int))] 0 RIGHT none)
            (200, 200) (140, 140) (300, 300)).snake.reset
      ∧ (GameState.mk (Snake.mk (320, 240) [(320, 240)] 1 RIGHT none)
          (360, 280) (400, 300) (440, 320)).snake.length = 1) :=
  ⟨c1_shrink_unclamped_reset_next_tick.1
    (GameState.mk (Snake.mk (320, 240) [(100, 100)] 1 RIGHT none)
      (200, 200) (100, 100) (300, 300))
    [] [(140, 140)] [] (100, 100)
    (GameState.mk (Snake.mk (320, 240) [(100, 100)] 0 RIGHT none)
      (200, 200) (140, 140) (300, 300))
    rfl rfl (by decide) (by decide) (by decide) rfl (by decide),
   c1_shrink_unclamped_reset_next_tick.2
    (GameState.mk (Snake.mk (320, 240) [(100, 100)] 0 RIGHT none)
      (200, 200) (140, 140) (300, 300))
    [(360, 280)] [(400, 300)] [(440, 320)]
    (GameState.mk (Snake.mk (320, 240) [(320, 240)] 1 RIGHT none)
      (360, 280) (400, 300) (440, 320))
    (by decide) (by decide)⟩
